import Mathlib

/-!
Verification development for the facility-booking web application
(Express + Drizzle backend in `server/routes.ts`, `server/storage.ts`,
`shared/schema.ts`).  The data model and every operation below are
translated from those sources; external libraries (bcrypt, jsonwebtoken,
zod's email format check) enter as explicit oracle parameters or
abstracted boolean checks, marked where they occur.
-/

namespace FacilityHub

/-- userRoleEnum from shared/schema.ts: student | faculty | admin. -/
inductive Role
  | student
  | faculty
  | admin
deriving DecidableEq

/-- bookingStatusEnum from shared/schema.ts: pending | approved | rejected. -/
inductive BookingStatus
  | pending
  | approved
  | rejected
deriving DecidableEq

/-- facilityStatusEnum from shared/schema.ts. -/
inductive FacilityStatus
  | available
  | maintenance
  | closed
deriving DecidableEq

/-- notificationStatusEnum from shared/schema.ts. -/
inductive NotificationStatus
  | unread
  | read
deriving DecidableEq

/-- users table row, shared/schema.ts.  Timestamps are abstract ticks. -/
structure User where
  id : Nat
  email : String
  password : String
  firstName : Option String
  lastName : Option String
  studentId : Option String
  role : Role
  createdAt : Nat
  updatedAt : Nat
deriving DecidableEq

/-- facilities table row, shared/schema.ts. -/
structure Facility where
  id : Nat
  name : String
  description : Option String
  capacity : Option Int
  location : Option String
  status : FacilityStatus
  amenities : Option String
  imageUrl : Option String
  createdAt : Nat
  updatedAt : Nat
deriving DecidableEq

/-- bookings table row, shared/schema.ts.  date/time columns are strings,
as drizzle returns them. -/
structure Booking where
  id : Nat
  userId : Nat
  facilityId : Nat
  eventName : String
  eventDescription : Option String
  purpose : Option String
  eventDate : String
  startTime : String
  endTime : String
  attendees : Option Int
  equipmentNeeded : Option String
  status : BookingStatus
  adminNotes : Option String
  reviewedBy : Option Nat
  reviewedAt : Option Nat
  createdAt : Nat
  updatedAt : Nat
deriving DecidableEq

/-- notifications table row, shared/schema.ts. -/
structure Notification where
  id : Nat
  userId : Nat
  title : String
  message : String
  type : String
  relatedBookingId : Option Nat
  status : NotificationStatus
  createdAt : Nat
deriving DecidableEq

/-- The relational store: the four tables plus the serial counters that
generate primary keys. -/
structure DB where
  users : List User
  facilities : List Facility
  bookings : List Booking
  notifications : List Notification
  nextUserId : Nat
  nextFacilityId : Nat
  nextBookingId : Nat
  nextNotificationId : Nat
deriving DecidableEq

/-- Empty database; serial counters start at 1 as in PostgreSQL. -/
def initDB : DB :=
  { users := []
    facilities := []
    bookings := []
    notifications := []
    nextUserId := 1
    nextFacilityId := 1
    nextBookingId := 1
    nextNotificationId := 1 }

/-! ### Storage layer (server/storage.ts, class DatabaseStorage) -/

/-- DatabaseStorage.getUserByEmail. -/
def getUserByEmail (db : DB) (email : String) : Option User :=
  db.users.find? (fun u => u.email == email)

/-- DatabaseStorage.getUser. -/
def getUser (db : DB) (id : Nat) : Option User :=
  db.users.find? (fun u => u.id == id)

/-- insertUserSchema: the users columns minus id/createdAt/updatedAt.
role has a database default of student, so the insert value is optional. -/
structure InsertUser where
  email : String
  password : String
  firstName : Option String
  lastName : Option String
  studentId : Option String
  role : Option Role
deriving DecidableEq

/-- DatabaseStorage.createUser: hashes the password (bcrypt, external -
the hash arrives as the `hashed` argument) and inserts the row. -/
def createUser (db : DB) (ins : InsertUser) (hashed : String) (now : Nat) : DB × User :=
  let u : User :=
    { id := db.nextUserId
      email := ins.email
      password := hashed
      firstName := ins.firstName
      lastName := ins.lastName
      studentId := ins.studentId
      role := ins.role.getD Role.student
      createdAt := now
      updatedAt := now }
  ({ db with users := db.users ++ [u], nextUserId := db.nextUserId + 1 }, u)

/-- insertBookingSchema: bookings columns minus
id/status/adminNotes/reviewedBy/reviewedAt/createdAt/updatedAt. -/
structure InsertBooking where
  userId : Nat
  facilityId : Nat
  eventName : String
  eventDescription : Option String
  purpose : Option String
  eventDate : String
  startTime : String
  endTime : String
  attendees : Option Int
  equipmentNeeded : Option String
deriving DecidableEq

/-- DatabaseStorage.createBooking: plain insert; status, adminNotes,
reviewedBy, reviewedAt take their database defaults (pending / NULL). -/
def createBooking (db : DB) (ins : InsertBooking) (now : Nat) : DB × Booking :=
  let b : Booking :=
    { id := db.nextBookingId
      userId := ins.userId
      facilityId := ins.facilityId
      eventName := ins.eventName
      eventDescription := ins.eventDescription
      purpose := ins.purpose
      eventDate := ins.eventDate
      startTime := ins.startTime
      endTime := ins.endTime
      attendees := ins.attendees
      equipmentNeeded := ins.equipmentNeeded
      status := BookingStatus.pending
      adminNotes := none
      reviewedBy := none
      reviewedAt := none
      createdAt := now
      updatedAt := now }
  ({ db with bookings := db.bookings ++ [b], nextBookingId := db.nextBookingId + 1 }, b)

/-- The row update performed by DatabaseStorage.updateBookingStatus.
drizzle's update.set drops entries whose value is `undefined`, so an
absent `notes` argument leaves adminNotes untouched while the other four
columns are always written. -/
def reviewBooking (b : Booking) (st : BookingStatus) (adminId : Nat)
    (notes : Option String) (now : Nat) : Booking :=
  { b with
    status := st
    reviewedBy := some adminId
    reviewedAt := some now
    adminNotes := (match notes with | some s => some s | none => b.adminNotes)
    updatedAt := now }

/-- DatabaseStorage.updateBookingStatus: update ... where id = bid
returning; yields none when no row matches. -/
def updateBookingStatus (db : DB) (bid : Nat) (st : BookingStatus) (adminId : Nat)
    (notes : Option String) (now : Nat) : Option (DB × Booking) :=
  match db.bookings.find? (fun b => b.id == bid) with
  | none => none
  | some b =>
      let upd := fun (x : Booking) =>
        if x.id == bid then reviewBooking x st adminId notes now else x
      some ({ db with bookings := db.bookings.map upd }, reviewBooking b st adminId notes now)

/-- insertNotificationSchema: notifications columns minus id/status/createdAt. -/
structure InsertNotification where
  userId : Nat
  title : String
  message : String
  type : String
  relatedBookingId : Option Nat
deriving DecidableEq

/-- DatabaseStorage.createNotification: insert with defaults
(status unread). -/
def createNotification (db : DB) (ins : InsertNotification) (now : Nat) : DB × Notification :=
  let n : Notification :=
    { id := db.nextNotificationId
      userId := ins.userId
      title := ins.title
      message := ins.message
      type := ins.type
      relatedBookingId := ins.relatedBookingId
      status := NotificationStatus.unread
      createdAt := now }
  ({ db with
      notifications := db.notifications ++ [n]
      nextNotificationId := db.nextNotificationId + 1 }, n)

/-- DatabaseStorage.markNotificationRead. -/
def markNotificationRead (db : DB) (nid : Nat) : DB :=
  let upd := fun (n : Notification) =>
    if n.id == nid then { n with status := NotificationStatus.read } else n
  { db with notifications := db.notifications.map upd }

/-- DatabaseStorage.markAllNotificationsRead. -/
def markAllNotificationsRead (db : DB) (uid : Nat) : DB :=
  let upd := fun (n : Notification) =>
    if n.userId == uid then { n with status := NotificationStatus.read } else n
  { db with notifications := db.notifications.map upd }

/-- DatabaseStorage.getBookingStats: full scan, three filters and a
length. -/
structure BookingStats where
  pending : Nat
  approved : Nat
  rejected : Nat
  total : Nat
deriving DecidableEq

def getBookingStats (db : DB) : BookingStats :=
  { pending := (db.bookings.filter (fun b => b.status == BookingStatus.pending)).length
  , approved := (db.bookings.filter (fun b => b.status == BookingStatus.approved)).length
  , rejected := (db.bookings.filter (fun b => b.status == BookingStatus.rejected)).length
  , total := db.bookings.length }

/-! ### JSON view of a user row and password stripping (routes.ts) -/

/-- A JSON scalar as it appears in the API responses we reason about. -/
inductive JVal
  | s (v : String)
  | n (v : Int)
  | null
deriving DecidableEq

def optStr : Option String → JVal
  | some v => JVal.s v
  | none => JVal.null

def roleToString : Role → String
  | Role.student => "student"
  | Role.faculty => "faculty"
  | Role.admin => "admin"

/-- The full user row as serialized to JSON (all columns, password
included), in column order of shared/schema.ts. -/
def userJson (u : User) : List (String × JVal) :=
  [("id", JVal.n u.id), ("email", JVal.s u.email), ("password", JVal.s u.password),
   ("firstName", optStr u.firstName), ("lastName", optStr u.lastName),
   ("studentId", optStr u.studentId), ("role", JVal.s (roleToString u.role)),
   ("createdAt", JVal.n u.createdAt), ("updatedAt", JVal.n u.updatedAt)]

/-- The object-rest destructuring used by every user-returning handler:
const (password, ...userWithoutPassword) = user. -/
def sanitizeUser (u : User) : List (String × JVal) :=
  (userJson u).filter (fun kv => kv.1 != "password")

/-! ### Authentication gate (routes.ts, authenticateToken / requireAdmin) -/

/-- The token payload jwt.sign embeds and jwt.verify returns:
(id, email, role). -/
structure TokenPayload where
  id : Nat
  email : String
  role : Role
deriving DecidableEq

/-- The three outcomes of inspecting the Authorization header: no token,
a token jwt.verify rejects (bad signature or expired - the external jwt
library's verdict is the constructor choice), or a verified payload. -/
inductive TokenState
  | missing
  | invalid
  | valid (payload : TokenPayload)

/-- authenticateToken middleware: `none` means the request passes to the
handler; `some c` means it is rejected with HTTP status c.  A missing
token yields 401; a present token that fails jwt.verify yields 403. -/
def authenticateTokenGate : TokenState → Option Nat
  | TokenState.missing => some 401
  | TokenState.invalid => some 403
  | TokenState.valid _ => none

/-! ### Auth routes (routes.ts) -/

/-- POST /api/auth/register request body (registerSchema). -/
structure RegisterBody where
  email : String
  password : String
  confirmPassword : String
  firstName : String
  lastName : String
  studentId : Option String
  role : Option Role
deriving DecidableEq

/-- Abstraction of zod's email format check (external zod library);
only the refinements written in shared/schema.ts are modelled exactly. -/
def emailFormatOk (e : String) : Bool :=
  e.toList.contains '@'

/-- registerSchema.safeParse success condition, from shared/schema.ts:
valid email, password of length at least 6, nonempty first and last
name, and password = confirmPassword. -/
def registerParseOk (b : RegisterBody) : Bool :=
  emailFormatOk b.email && decide (b.password.length ≥ 6) &&
  decide (b.firstName.length ≥ 1) && decide (b.lastName.length ≥ 1) &&
  b.password == b.confirmPassword

inductive RegisterResult
  | validationFailed
  | emailConflict
  | created (user : List (String × JVal)) (token : TokenPayload)
deriving DecidableEq

/-- HTTP status attached to each register outcome in routes.ts. -/
def registerStatusCode : RegisterResult → Nat
  | RegisterResult.validationFailed => 400
  | RegisterResult.emailConflict => 400
  | RegisterResult.created _ _ => 201

/-- POST /api/auth/register handler.  `hashed` is the bcrypt hash of the
submitted password (external bcrypt call). -/
def registerRoute (b : RegisterBody) (hashed : String) (now : Nat) (db : DB) :
    DB × RegisterResult :=
  if !(registerParseOk b) then (db, RegisterResult.validationFailed)
  else
    match getUserByEmail db b.email with
    | some _ => (db, RegisterResult.emailConflict)
    | none =>
        let ins : InsertUser :=
          { email := b.email
            password := b.password
            firstName := some b.firstName
            lastName := some b.lastName
            studentId := b.studentId
            role := b.role }
        let (db', u) := createUser db ins hashed now
        (db', RegisterResult.created (sanitizeUser u) ⟨u.id, u.email, u.role⟩)

/-- POST /api/auth/login request body (loginSchema). -/
structure LoginBody where
  email : String
  password : String
deriving DecidableEq

def loginParseOk (b : LoginBody) : Bool :=
  emailFormatOk b.email && decide (b.password.length ≥ 6)

inductive LoginResult
  | validationFailed
  | invalidCredentials
  | ok (user : List (String × JVal)) (token : TokenPayload)
deriving DecidableEq

/-- POST /api/auth/login handler.  `bcryptOk plain hash` is the external
bcrypt.compare oracle. -/
def loginRoute (b : LoginBody) (bcryptOk : String → String → Bool) (db : DB) :
    DB × LoginResult :=
  if !(loginParseOk b) then (db, LoginResult.validationFailed)
  else
    match getUserByEmail db b.email with
    | none => (db, LoginResult.invalidCredentials)
    | some u =>
        if !(bcryptOk b.password u.password) then (db, LoginResult.invalidCredentials)
        else (db, LoginResult.ok (sanitizeUser u) ⟨u.id, u.email, u.role⟩)

/-! ### Profile routes (routes.ts) -/

/-- PATCH /api/users/profile body: the handler picks exactly firstName,
lastName, studentId.  `none` means the key is absent (undefined), which
drizzle's update.set drops, leaving the column unchanged. -/
structure ProfileBody where
  firstName : Option String
  lastName : Option String
  studentId : Option String
deriving DecidableEq

/-- DatabaseStorage.updateUser on the three profile columns. -/
def updateUser (db : DB) (uid : Nat) (data : ProfileBody) (now : Nat) :
    Option (DB × User) :=
  match db.users.find? (fun u => u.id == uid) with
  | none => none
  | some u =>
      let upd := fun (x : User) =>
        { x with
          firstName := (match data.firstName with | some s => some s | none => x.firstName)
          lastName := (match data.lastName with | some s => some s | none => x.lastName)
          studentId := (match data.studentId with | some s => some s | none => x.studentId)
          updatedAt := now }
      some ({ db with users := db.users.map (fun x => if x.id == uid then upd x else x) }, upd u)

inductive ProfileResult
  | notFound
  | ok (user : List (String × JVal))
deriving DecidableEq

/-- PATCH /api/users/profile handler. -/
def profileRoute (caller : TokenPayload) (body : ProfileBody) (now : Nat) (db : DB) :
    DB × ProfileResult :=
  match updateUser db caller.id body now with
  | none => (db, ProfileResult.notFound)
  | some (db', u) => (db', ProfileResult.ok (sanitizeUser u))

inductive PasswordResult
  | notFound
  | wrongPassword
  | ok
deriving DecidableEq

/-- PATCH /api/users/password handler; bcrypt compare and hash are the
external oracle arguments. -/
def passwordRoute (caller : TokenPayload) (currentPassword : String)
    (bcryptOk : String → String → Bool) (newHash : String) (now : Nat) (db : DB) :
    DB × PasswordResult :=
  match getUser db caller.id with
  | none => (db, PasswordResult.notFound)
  | some u =>
      if !(bcryptOk currentPassword u.password) then (db, PasswordResult.wrongPassword)
      else
        let upd := fun (x : User) =>
          if x.id == caller.id then { x with password := newHash, updatedAt := now } else x
        ({ db with users := db.users.map upd }, PasswordResult.ok)

/-! ### Booking routes (routes.ts) -/

/-- POST /api/bookings request body.  The client may supply a userId and
a status; the handler spreads the body and then overwrites userId with
the caller id, and insertBookingSchema omits status, so zod strips it. -/
structure BookingReqBody where
  userId : Option Nat
  status : Option BookingStatus
  facilityId : Nat
  eventName : String
  eventDescription : Option String
  purpose : Option String
  eventDate : String
  startTime : String
  endTime : String
  attendees : Option Int
  equipmentNeeded : Option String
deriving DecidableEq

/-- insertBookingSchema.safeParse on `(...body, userId: caller.id)`:
the schema omits status/adminNotes/reviewedBy/reviewedAt, so the
client-supplied status never reaches the insert; drizzle-zod keeps the
varchar(255) bound on eventName. -/
def bookingParse (callerId : Nat) (b : BookingReqBody) : Option InsertBooking :=
  if b.eventName.length ≤ 255 then
    some { userId := callerId
           facilityId := b.facilityId
           eventName := b.eventName
           eventDescription := b.eventDescription
           purpose := b.purpose
           eventDate := b.eventDate
           startTime := b.startTime
           endTime := b.endTime
           attendees := b.attendees
           equipmentNeeded := b.equipmentNeeded }
  else none

inductive CreateBookingResult
  | validationFailed
  | created (b : Booking)
deriving DecidableEq

def submitMessage (eventName : String) : String :=
  "Your booking request for \"" ++ eventName ++
    "\" has been submitted and is pending review."

/-- POST /api/bookings handler: parse, insert, then insert the
acknowledgement notification for the caller. -/
def createBookingRoute (caller : TokenPayload) (body : BookingReqBody) (now : Nat) (db : DB) :
    DB × CreateBookingResult :=
  match bookingParse caller.id body with
  | none => (db, CreateBookingResult.validationFailed)
  | some ins =>
      let (db1, bk) := createBooking db ins now
      let (db2, _) := createNotification db1
        { userId := caller.id
          title := "Booking Request Submitted"
          message := submitMessage bk.eventName
          type := "info"
          relatedBookingId := some bk.id } now
      (db2, CreateBookingResult.created bk)

/-! ### Admin review routes (routes.ts, approve / reject handlers) -/

inductive ReviewResult
  | forbidden
  | notFound
  | ok (b : Booking)
deriving DecidableEq

/-- HTTP status of each review outcome. -/
def reviewStatusCode : ReviewResult → Nat
  | ReviewResult.forbidden => 403
  | ReviewResult.notFound => 404
  | ReviewResult.ok _ => 200

def approveMessage (eventName : String) : String :=
  "Your booking request for \"" ++ eventName ++ "\" has been approved!"

/-- Template of the reject handler: `... rejected. $(notes ? ...)`, where
an absent or empty notes string contributes nothing. -/
def rejectMessage (eventName : String) (notes : Option String) : String :=
  "Your booking request for \"" ++ eventName ++ "\" has been rejected. " ++
    (match notes with
     | some s => if s == "" then "" else "Reason: " ++ s
     | none => "")

/-- PATCH /api/admin/bookings/:id/approve handler (after
authenticateToken; requireAdmin is the first check). -/
def approveRoute (caller : TokenPayload) (bid : Nat) (notes : Option String)
    (now : Nat) (db : DB) : DB × ReviewResult :=
  if caller.role != Role.admin then (db, ReviewResult.forbidden)
  else
    match updateBookingStatus db bid BookingStatus.approved caller.id notes now with
    | none => (db, ReviewResult.notFound)
    | some (db1, upd) =>
        let (db2, _) := createNotification db1
          { userId := upd.userId
            title := "Booking Approved"
            message := approveMessage upd.eventName
            type := "success"
            relatedBookingId := some upd.id } now
        (db2, ReviewResult.ok upd)

/-- PATCH /api/admin/bookings/:id/reject handler. -/
def rejectRoute (caller : TokenPayload) (bid : Nat) (notes : Option String)
    (now : Nat) (db : DB) : DB × ReviewResult :=
  if caller.role != Role.admin then (db, ReviewResult.forbidden)
  else
    match updateBookingStatus db bid BookingStatus.rejected caller.id notes now with
    | none => (db, ReviewResult.notFound)
    | some (db1, upd) =>
        let (db2, _) := createNotification db1
          { userId := upd.userId
            title := "Booking Rejected"
            message := rejectMessage upd.eventName notes
            type := "error"
            relatedBookingId := some upd.id } now
        (db2, ReviewResult.ok upd)

/-! ### Admin user routes (routes.ts) -/

/-- GET /api/admin/users: all rows with password stripped (the SQL
orderBy only permutes rows; the stored insertion order is kept here). -/
def adminUsersRoute (caller : TokenPayload) (db : DB) :
    Option (List (List (String × JVal))) :=
  if caller.role != Role.admin then none
  else some (db.users.map sanitizeUser)

/-- Role string validation in the role-update handler:
["student","faculty","admin"].includes(role). -/
def parseRole : String → Option Role
  | "student" => some Role.student
  | "faculty" => some Role.faculty
  | "admin" => some Role.admin
  | _ => none

/-- DatabaseStorage.updateUserRole. -/
def updateUserRole (db : DB) (uid : Nat) (r : Role) (now : Nat) : Option (DB × User) :=
  match db.users.find? (fun u => u.id == uid) with
  | none => none
  | some u =>
      let upd := fun (x : User) => { x with role := r, updatedAt := now }
      some ({ db with users := db.users.map (fun x => if x.id == uid then upd x else x) }, upd u)

inductive RoleUpdateResult
  | forbidden
  | invalidRole
  | notFound
  | ok (user : List (String × JVal))
deriving DecidableEq

/-- PATCH /api/admin/users/:id/role handler. -/
def roleRoute (caller : TokenPayload) (uid : Nat) (roleName : String) (now : Nat)
    (db : DB) : DB × RoleUpdateResult :=
  if caller.role != Role.admin then (db, RoleUpdateResult.forbidden)
  else
    match parseRole roleName with
    | none => (db, RoleUpdateResult.invalidRole)
    | some r =>
        match updateUserRole db uid r now with
        | none => (db, RoleUpdateResult.notFound)
        | some (db', u) => (db', RoleUpdateResult.ok (sanitizeUser u))

inductive DeleteUserResult
  | forbidden
  | selfDelete
  | ok
deriving DecidableEq

/-- DELETE /api/admin/users/:id handler: admins cannot delete their own
account; otherwise an unconditional delete. -/
def deleteUserRoute (caller : TokenPayload) (uid : Nat) (db : DB) : DB × DeleteUserResult :=
  if caller.role != Role.admin then (db, DeleteUserResult.forbidden)
  else if uid == caller.id then (db, DeleteUserResult.selfDelete)
  else ({ db with users := db.users.filter (fun u => u.id != uid) }, DeleteUserResult.ok)

/-! ### Admin facility routes (routes.ts) -/

/-- insertFacilitySchema: facility columns minus id/createdAt/updatedAt;
status has a database default of available. -/
structure InsertFacility where
  name : String
  description : Option String
  capacity : Option Int
  location : Option String
  status : Option FacilityStatus
  amenities : Option String
  imageUrl : Option String
deriving DecidableEq

/-- DatabaseStorage.createFacility. -/
def createFacility (db : DB) (ins : InsertFacility) (now : Nat) : DB × Facility :=
  let f : Facility :=
    { id := db.nextFacilityId
      name := ins.name
      description := ins.description
      capacity := ins.capacity
      location := ins.location
      status := ins.status.getD FacilityStatus.available
      amenities := ins.amenities
      imageUrl := ins.imageUrl
      createdAt := now
      updatedAt := now }
  ({ db with facilities := db.facilities ++ [f], nextFacilityId := db.nextFacilityId + 1 }, f)

/-- POST /api/admin/facilities handler (validation modelled as the
varchar(255) bound on name from drizzle-zod). -/
def createFacilityRoute (caller : TokenPayload) (body : InsertFacility) (now : Nat)
    (db : DB) : DB × Option Facility :=
  if caller.role != Role.admin then (db, none)
  else if body.name.length ≤ 255 then
    let (db', f) := createFacility db body now
    (db', some f)
  else (db, none)

/-- Partial facility patch; `none` = key absent, dropped by drizzle. -/
structure FacilityPatch where
  name : Option String
  description : Option String
  capacity : Option Int
  location : Option String
  status : Option FacilityStatus
  amenities : Option String
  imageUrl : Option String
deriving DecidableEq

/-- DatabaseStorage.updateFacility. -/
def updateFacility (db : DB) (fid : Nat) (p : FacilityPatch) (now : Nat) :
    Option (DB × Facility) :=
  match db.facilities.find? (fun f => f.id == fid) with
  | none => none
  | some f =>
      let upd := fun (x : Facility) =>
        { x with
          name := (match p.name with | some s => s | none => x.name)
          description := (match p.description with | some s => some s | none => x.description)
          capacity := (match p.capacity with | some c => some c | none => x.capacity)
          location := (match p.location with | some s => some s | none => x.location)
          status := (match p.status with | some s => s | none => x.status)
          amenities := (match p.amenities with | some s => some s | none => x.amenities)
          imageUrl := (match p.imageUrl with | some s => some s | none => x.imageUrl)
          updatedAt := now }
      some ({ db with facilities := db.facilities.map (fun x => if x.id == fid then upd x else x) }
           , upd f)

/-- PATCH /api/admin/facilities/:id handler. -/
def updateFacilityRoute (caller : TokenPayload) (fid : Nat) (p : FacilityPatch) (now : Nat)
    (db : DB) : DB × Option Facility :=
  if caller.role != Role.admin then (db, none)
  else
    match updateFacility db fid p now with
    | none => (db, none)
    | some (db', f) => (db', some f)

/-- DELETE /api/admin/facilities/:id handler. -/
def deleteFacilityRoute (caller : TokenPayload) (fid : Nat) (db : DB) : DB × Bool :=
  if caller.role != Role.admin then (db, false)
  else ({ db with facilities := db.facilities.filter (fun f => f.id != fid) }, true)

/-! ### The Express route table (every app.METHOD call in registerRoutes)
and the dispatch rule: a request matching no registered route never
reaches a handler (Express answers 404 and no state changes). -/

inductive Method
  | get
  | post
  | patch
  | put
  | delete
deriving DecidableEq

/-- One path segment of a route pattern: a literal or an :id parameter. -/
inductive Seg
  | lit (s : String)
  | param
deriving DecidableEq

/-- Every route registered in registerRoutes (server/routes.ts), in
registration order. -/
def registeredRoutes : List (Method × List Seg) :=
  [ (Method.post, [Seg.lit "api", Seg.lit "auth", Seg.lit "register"]),
    (Method.post, [Seg.lit "api", Seg.lit "auth", Seg.lit "login"]),
    (Method.patch, [Seg.lit "api", Seg.lit "users", Seg.lit "profile"]),
    (Method.patch, [Seg.lit "api", Seg.lit "users", Seg.lit "password"]),
    (Method.get, [Seg.lit "api", Seg.lit "facilities"]),
    (Method.get, [Seg.lit "api", Seg.lit "facilities", Seg.param]),
    (Method.get, [Seg.lit "api", Seg.lit "bookings", Seg.lit "my"]),
    (Method.post, [Seg.lit "api", Seg.lit "bookings"]),
    (Method.get, [Seg.lit "api", Seg.lit "bookings", Seg.lit "stats"]),
    (Method.get, [Seg.lit "api", Seg.lit "notifications"]),
    (Method.patch, [Seg.lit "api", Seg.lit "notifications", Seg.param, Seg.lit "read"]),
    (Method.patch, [Seg.lit "api", Seg.lit "notifications", Seg.lit "read-all"]),
    (Method.get, [Seg.lit "api", Seg.lit "admin", Seg.lit "bookings"]),
    (Method.patch, [Seg.lit "api", Seg.lit "admin", Seg.lit "bookings", Seg.param, Seg.lit "approve"]),
    (Method.patch, [Seg.lit "api", Seg.lit "admin", Seg.lit "bookings", Seg.param, Seg.lit "reject"]),
    (Method.get, [Seg.lit "api", Seg.lit "admin", Seg.lit "users"]),
    (Method.patch, [Seg.lit "api", Seg.lit "admin", Seg.lit "users", Seg.param, Seg.lit "role"]),
    (Method.delete, [Seg.lit "api", Seg.lit "admin", Seg.lit "users", Seg.param]),
    (Method.post, [Seg.lit "api", Seg.lit "admin", Seg.lit "facilities"]),
    (Method.patch, [Seg.lit "api", Seg.lit "admin", Seg.lit "facilities", Seg.param]),
    (Method.delete, [Seg.lit "api", Seg.lit "admin", Seg.lit "facilities", Seg.param]),
    (Method.get, [Seg.lit "api", Seg.lit "admin", Seg.lit "stats"]) ]

def segMatch : Seg → String → Bool
  | Seg.lit s, t => s == t
  | Seg.param, _ => true

def pathMatch : List Seg → List String → Bool
  | [], [] => true
  | sg :: ss, t :: ts => segMatch sg t && pathMatch ss ts
  | _, _ => false

/-- Whether some registered route handles the given method and path. -/
def routeMatch (m : Method) (path : List String) : Bool :=
  registeredRoutes.any (fun r => r.1 == m && pathMatch r.2 path)

/-! ### Reachable states: every state-mutating endpoint as a step -/

/-- One state transition of the store: a single call to one of the
mutating handlers (read-only handlers leave the store untouched). -/
inductive Step : DB → DB → Prop
  | register (db : DB) (b : RegisterBody) (hashed : String) (now : Nat) :
      Step db (registerRoute b hashed now db).1
  | profile (db : DB) (caller : TokenPayload) (body : ProfileBody) (now : Nat) :
      Step db (profileRoute caller body now db).1
  | password (db : DB) (caller : TokenPayload) (cur : String)
      (ok : String → String → Bool) (h : String) (now : Nat) :
      Step db (passwordRoute caller cur ok h now db).1
  | book (db : DB) (caller : TokenPayload) (body : BookingReqBody) (now : Nat) :
      Step db (createBookingRoute caller body now db).1
  | approve (db : DB) (caller : TokenPayload) (bid : Nat) (notes : Option String) (now : Nat) :
      Step db (approveRoute caller bid notes now db).1
  | reject (db : DB) (caller : TokenPayload) (bid : Nat) (notes : Option String) (now : Nat) :
      Step db (rejectRoute caller bid notes now db).1
  | markRead (db : DB) (nid : Nat) :
      Step db (markNotificationRead db nid)
  | markAll (db : DB) (uid : Nat) :
      Step db (markAllNotificationsRead db uid)
  | setRole (db : DB) (caller : TokenPayload) (uid : Nat) (roleName : String) (now : Nat) :
      Step db (roleRoute caller uid roleName now db).1
  | delUser (db : DB) (caller : TokenPayload) (uid : Nat) :
      Step db (deleteUserRoute caller uid db).1
  | newFacility (db : DB) (caller : TokenPayload) (body : InsertFacility) (now : Nat) :
      Step db (createFacilityRoute caller body now db).1
  | editFacility (db : DB) (caller : TokenPayload) (fid : Nat) (p : FacilityPatch) (now : Nat) :
      Step db (updateFacilityRoute caller fid p now db).1
  | delFacility (db : DB) (caller : TokenPayload) (fid : Nat) :
      Step db (deleteFacilityRoute caller fid db).1

/-- States reachable from the empty store through the API. -/
inductive Reachable : DB → Prop
  | init : Reachable initDB
  | step {db db' : DB} : Reachable db → Step db db' → Reachable db'

/-- The booking invariant of the spec: a legal status value, and the
review columns are NULL exactly on pending bookings. -/
def BookingInv (b : Booking) : Prop :=
  (b.status = BookingStatus.pending ∨ b.status = BookingStatus.approved ∨
    b.status = BookingStatus.rejected) ∧
  ((b.reviewedBy = none ∧ b.reviewedAt = none) ↔ b.status = BookingStatus.pending)

/-! ### Concrete sample data used to instantiate the theorems -/

def studentW : TokenPayload := ⟨7, "stu@x.y", Role.student⟩

def adminW : TokenPayload := ⟨2, "admin@x.y", Role.admin⟩

/-- A booking request whose client tries to smuggle a foreign owner id
and a pre-approved status. -/
def bookReqW : BookingReqBody :=
  { userId := some 99
    status := some BookingStatus.approved
    facilityId := 3
    eventName := "Party"
    eventDescription := none
    purpose := some "fun"
    eventDate := "2025-01-15"
    startTime := "10:00"
    endTime := "12:00"
    attendees := some 10
    equipmentNeeded := none }

/-- The booking the server actually stores for bookReqW. -/
def bkW : Booking :=
  { id := 1, userId := 7, facilityId := 3, eventName := "Party"
    eventDescription := none, purpose := some "fun", eventDate := "2025-01-15"
    startTime := "10:00", endTime := "12:00", attendees := some 10
    equipmentNeeded := none, status := BookingStatus.pending, adminNotes := none
    reviewedBy := none, reviewedAt := none, createdAt := 0, updatedAt := 0 }

def regBodyW : RegisterBody :=
  { email := "a@b.c", password := "secret1", confirmPassword := "secret1"
    firstName := "A", lastName := "B", studentId := none, role := none }

/-- The user row created for regBodyW. -/
def uW : User := ⟨1, "a@b.c", "hashedpw", some "A", some "B", none, Role.student, 0, 0⟩

def exBooking (id : Nat) (st : BookingStatus) : Booking :=
  { id := id, userId := 1, facilityId := 1, eventName := "Event"
    eventDescription := none, purpose := none, eventDate := "2025-01-15"
    startTime := "10:00", endTime := "12:00", attendees := none
    equipmentNeeded := none, status := st, adminNotes := none
    reviewedBy := none, reviewedAt := none, createdAt := 0, updatedAt := 0 }

def statsExampleDB : DB :=
  { initDB with
      bookings :=
        [exBooking 1 BookingStatus.approved, exBooking 2 BookingStatus.approved,
         exBooking 3 BookingStatus.approved, exBooking 4 BookingStatus.pending,
         exBooking 5 BookingStatus.pending, exBooking 6 BookingStatus.rejected]
      nextBookingId := 7 }

def dbW : DB :=
  { initDB with bookings := [exBooking 1 BookingStatus.pending], nextBookingId := 2 }

def dbApprovedW : DB :=
  { initDB with bookings := [exBooking 1 BookingStatus.approved], nextBookingId := 2 }

def dbUserW : DB := (registerRoute regBodyW "hashedpw" 0 initDB).1

def dbReachedW : DB := (createBookingRoute studentW bookReqW 0 initDB).1

/-! ### Helper lemmas -/

lemma bookingParse_userId (cid : Nat) (b : BookingReqBody) (ins : InsertBooking)
    (h : bookingParse cid b = some ins) : ins.userId = cid := by
  unfold bookingParse at h
  split at h
  · cases h; rfl
  · cases h

lemma status_filter_partition (bs : List Booking) :
    (bs.filter (fun b => b.status == BookingStatus.pending)).length +
    (bs.filter (fun b => b.status == BookingStatus.approved)).length +
    (bs.filter (fun b => b.status == BookingStatus.rejected)).length = bs.length := by
  induction bs with
  | nil => rfl
  | cons b t ih =>
      cases h : b.status <;> simp [List.filter_cons, h] <;> omega

lemma rejectMessage_embeds (ev : String) (s : String) :
    ∃ pre post, rejectMessage ev (some s) = pre ++ s ++ post := by
  by_cases h : s = ""
  · subst h
    exact ⟨rejectMessage ev (some ""), "", by rw [String.append_empty, String.append_empty]⟩
  · refine ⟨"Your booking request for \"" ++ (ev ++ ("\" has been rejected. " ++ "Reason: ")), "", ?_⟩
    simp only [rejectMessage]
    rw [if_neg (by simp [h])]
    rw [String.append_empty]
    rw [String.append_assoc, String.append_assoc, String.append_assoc, String.append_assoc]
    rfl

lemma approveRoute_notFound (caller : TokenPayload) (bid : Nat) (notes : Option String)
    (now : Nat) (db : DB) (hAdmin : caller.role = Role.admin)
    (hfind : db.bookings.find? (fun x => x.id == bid) = none) :
    approveRoute caller bid notes now db = (db, ReviewResult.notFound) := by
  simp [approveRoute, updateBookingStatus, hAdmin, hfind]

lemma rejectRoute_notFound (caller : TokenPayload) (bid : Nat) (notes : Option String)
    (now : Nat) (db : DB) (hAdmin : caller.role = Role.admin)
    (hfind : db.bookings.find? (fun x => x.id == bid) = none) :
    rejectRoute caller bid notes now db = (db, ReviewResult.notFound) := by
  simp [rejectRoute, updateBookingStatus, hAdmin, hfind]

lemma approveRoute_found (caller : TokenPayload) (bid : Nat) (notes : Option String)
    (now : Nat) (db : DB) (b : Booking) (hAdmin : caller.role = Role.admin)
    (hfind : db.bookings.find? (fun x => x.id == bid) = some b) :
    (approveRoute caller bid notes now db).2 =
      ReviewResult.ok (reviewBooking b BookingStatus.approved caller.id notes now) ∧
    ((approveRoute caller bid notes now db).1).bookings =
      db.bookings.map (fun x =>
        if x.id == bid then reviewBooking x BookingStatus.approved caller.id notes now else x) ∧
    ((approveRoute caller bid notes now db).1).notifications =
      db.notifications ++
        [{ id := db.nextNotificationId
           userId := b.userId
           title := "Booking Approved"
           message := approveMessage b.eventName
           type := "success"
           relatedBookingId := some b.id
           status := NotificationStatus.unread
           createdAt := now }] := by
  refine ⟨?_, ?_, ?_⟩ <;>
    simp [approveRoute, updateBookingStatus, createNotification, reviewBooking, hAdmin, hfind]

lemma rejectRoute_found (caller : TokenPayload) (bid : Nat) (notes : Option String)
    (now : Nat) (db : DB) (b : Booking) (hAdmin : caller.role = Role.admin)
    (hfind : db.bookings.find? (fun x => x.id == bid) = some b) :
    (rejectRoute caller bid notes now db).2 =
      ReviewResult.ok (reviewBooking b BookingStatus.rejected caller.id notes now) ∧
    ((rejectRoute caller bid notes now db).1).bookings =
      db.bookings.map (fun x =>
        if x.id == bid then reviewBooking x BookingStatus.rejected caller.id notes now else x) ∧
    ((rejectRoute caller bid notes now db).1).notifications =
      db.notifications ++
        [{ id := db.nextNotificationId
           userId := b.userId
           title := "Booking Rejected"
           message := rejectMessage b.eventName notes
           type := "error"
           relatedBookingId := some b.id
           status := NotificationStatus.unread
           createdAt := now }] := by
  refine ⟨?_, ?_, ?_⟩ <;>
    simp [rejectRoute, updateBookingStatus, createNotification, reviewBooking, hAdmin, hfind]

/-! ### Bookings-table preservation lemmas for every non-booking endpoint -/

lemma registerRoute_bookings (b : RegisterBody) (hashed : String) (now : Nat) (db : DB) :
    ((registerRoute b hashed now db).1).bookings = db.bookings := by
  unfold registerRoute
  split
  · rfl
  · cases hf : getUserByEmail db b.email <;> simp [createUser]

lemma profileRoute_bookings (caller : TokenPayload) (body : ProfileBody) (now : Nat) (db : DB) :
    ((profileRoute caller body now db).1).bookings = db.bookings := by
  unfold profileRoute updateUser
  cases hf : db.users.find? (fun u => u.id == caller.id) <;> simp [hf]

lemma passwordRoute_bookings (caller : TokenPayload) (cur : String)
    (ok : String → String → Bool) (nh : String) (now : Nat) (db : DB) :
    ((passwordRoute caller cur ok nh now db).1).bookings = db.bookings := by
  unfold passwordRoute getUser
  cases hf : db.users.find? (fun u => u.id == caller.id) <;> simp [hf]
  split <;> rfl

lemma roleRoute_bookings (caller : TokenPayload) (uid : Nat) (rn : String) (now : Nat) (db : DB) :
    ((roleRoute caller uid rn now db).1).bookings = db.bookings := by
  unfold roleRoute updateUserRole
  split
  · rfl
  · cases hr : parseRole rn
    · rfl
    · cases hf : db.users.find? (fun u => u.id == uid) <;> simp [hf]

lemma deleteUserRoute_bookings (caller : TokenPayload) (uid : Nat) (db : DB) :
    ((deleteUserRoute caller uid db).1).bookings = db.bookings := by
  unfold deleteUserRoute
  split
  · rfl
  · split <;> rfl

lemma createFacilityRoute_bookings (caller : TokenPayload) (body : InsertFacility)
    (now : Nat) (db : DB) :
    ((createFacilityRoute caller body now db).1).bookings = db.bookings := by
  unfold createFacilityRoute
  split
  · rfl
  · split <;> simp [createFacility]

lemma updateFacilityRoute_bookings (caller : TokenPayload) (fid : Nat) (p : FacilityPatch)
    (now : Nat) (db : DB) :
    ((updateFacilityRoute caller fid p now db).1).bookings = db.bookings := by
  unfold updateFacilityRoute updateFacility
  split
  · rfl
  · cases hf : db.facilities.find? (fun f => f.id == fid) <;> simp [hf]

lemma deleteFacilityRoute_bookings (caller : TokenPayload) (fid : Nat) (db : DB) :
    ((deleteFacilityRoute caller fid db).1).bookings = db.bookings := by
  unfold deleteFacilityRoute
  split <;> rfl

/-! ### Invariant preservation for the booking-touching endpoints -/

lemma inv_reviewBooking (b : Booking) (st : BookingStatus) (adminId : Nat)
    (notes : Option String) (now : Nat)
    (hst : st = BookingStatus.approved ∨ st = BookingStatus.rejected) :
    BookingInv (reviewBooking b st adminId notes now) := by
  rcases hst with rfl | rfl <;>
    exact ⟨by simp [reviewBooking], by simp [reviewBooking]⟩

lemma inv_approveRoute (caller : TokenPayload) (bid : Nat) (notes : Option String)
    (now : Nat) (db : DB) (hinv : ∀ b ∈ db.bookings, BookingInv b) :
    ∀ b ∈ ((approveRoute caller bid notes now db).1).bookings, BookingInv b := by
  intro b hb
  unfold approveRoute updateBookingStatus at hb
  split at hb
  · exact hinv b hb
  · cases hf : db.bookings.find? (fun x => x.id == bid) <;> rw [hf] at hb
    · exact hinv b hb
    · simp only [createNotification] at hb
      rcases List.mem_map.mp hb with ⟨a, ha, rfl⟩
      by_cases hid : (a.id == bid) = true
      · rw [if_pos hid]
        exact inv_reviewBooking a _ caller.id notes now (Or.inl rfl)
      · rw [if_neg hid]
        exact hinv a ha

lemma inv_rejectRoute (caller : TokenPayload) (bid : Nat) (notes : Option String)
    (now : Nat) (db : DB) (hinv : ∀ b ∈ db.bookings, BookingInv b) :
    ∀ b ∈ ((rejectRoute caller bid notes now db).1).bookings, BookingInv b := by
  intro b hb
  unfold rejectRoute updateBookingStatus at hb
  split at hb
  · exact hinv b hb
  · cases hf : db.bookings.find? (fun x => x.id == bid) <;> rw [hf] at hb
    · exact hinv b hb
    · simp only [createNotification] at hb
      rcases List.mem_map.mp hb with ⟨a, ha, rfl⟩
      by_cases hid : (a.id == bid) = true
      · rw [if_pos hid]
        exact inv_reviewBooking a _ caller.id notes now (Or.inr rfl)
      · rw [if_neg hid]
        exact hinv a ha

lemma inv_createBookingRoute (caller : TokenPayload) (body : BookingReqBody)
    (now : Nat) (db : DB) (hinv : ∀ b ∈ db.bookings, BookingInv b) :
    ∀ b ∈ ((createBookingRoute caller body now db).1).bookings, BookingInv b := by
  intro b hb
  unfold createBookingRoute at hb
  cases hp : bookingParse caller.id body <;> rw [hp] at hb
  · exact hinv b hb
  · simp only [createBooking, createNotification] at hb
    rcases List.mem_append.mp hb with h | h
    · exact hinv b h
    · rcases List.mem_singleton.mp h with rfl
      exact ⟨Or.inl rfl, by simp⟩

/-! ### Password-stripping lemmas -/

lemma sanitize_keys (l : List (String × JVal)) :
    ∀ kv ∈ l.filter (fun kv => kv.1 != "password"), kv.1 ≠ "password" := by
  intro kv hkv
  have := List.of_mem_filter hkv
  simpa using this

lemma sanitize_lookup (l : List (String × JVal)) (k : String) (hk : k ≠ "password") :
    (l.filter (fun kv => kv.1 != "password")).lookup k = l.lookup k := by
  induction l with
  | nil => rfl
  | cons p t ih =>
      obtain ⟨k1, v1⟩ := p
      by_cases hp : k1 = "password"
      · subst hp
        have hkk : (k == "password") = false := by simp [hk]
        simp [List.filter_cons, List.lookup, hkk, ih]
      · simp only [List.filter_cons]
        have : ((k1, v1).1 != "password") = true := by simp [hp]
        rw [this]
        simp only [List.lookup, ih]

lemma registerRoute_created_shape (b : RegisterBody) (hashed : String) (now : Nat)
    (db : DB) (f : List (String × JVal)) (t : TokenPayload)
    (h : (registerRoute b hashed now db).2 = RegisterResult.created f t) :
    ∃ u ∈ ((registerRoute b hashed now db).1).users, f = sanitizeUser u := by
  unfold registerRoute at h ⊢
  split at h
  · cases h
  · rename_i hv
    rw [if_neg hv]
    cases hf : getUserByEmail db b.email <;> try rw [hf] at h
    · simp only [createUser] at h ⊢
      injection h with h1 _
      exact ⟨_, by simp, h1.symm⟩
    · cases h

lemma loginRoute_ok_shape (b : LoginBody) (ok : String → String → Bool) (db : DB)
    (f : List (String × JVal)) (t : TokenPayload)
    (h : (loginRoute b ok db).2 = LoginResult.ok f t) :
    ∃ u ∈ db.users, f = sanitizeUser u := by
  unfold loginRoute at h
  split at h
  · cases h
  · cases hf : getUserByEmail db b.email
    case none => simp only [hf] at h; cases h
    case some u =>
      simp only [hf] at h
      by_cases hok : (!ok b.password u.password) = true
      · rw [if_pos hok] at h; cases h
      · rw [if_neg hok] at h
        injection h with h1 _
        exact ⟨u, List.mem_of_find?_eq_some hf, h1.symm⟩

lemma updateUser_mem (db : DB) (uid : Nat) (data : ProfileBody) (now : Nat)
    (db' : DB) (u : User) (h : updateUser db uid data now = some (db', u)) :
    u ∈ db'.users := by
  unfold updateUser at h
  cases hf : db.users.find? (fun x => x.id == uid) <;> try rw [hf] at h
  · cases h
  · rename_i u0
    simp only [] at h
    injection h with h'
    cases h'
    have hmem := List.mem_of_find?_eq_some hf
    have hpred : (u0.id == uid) = true := by simpa using List.find?_some hf
    have hm := List.mem_map_of_mem
      (fun x : User => if x.id == uid then
        { x with
          firstName := (match data.firstName with | some s => some s | none => x.firstName)
          lastName := (match data.lastName with | some s => some s | none => x.lastName)
          studentId := (match data.studentId with | some s => some s | none => x.studentId)
          updatedAt := now } else x) hmem
    simp only [] at hm
    rw [if_pos hpred] at hm
    exact hm

lemma profileRoute_ok_shape (caller : TokenPayload) (body : ProfileBody) (now : Nat)
    (db : DB) (f : List (String × JVal))
    (h : (profileRoute caller body now db).2 = ProfileResult.ok f) :
    ∃ u ∈ ((profileRoute caller body now db).1).users, f = sanitizeUser u := by
  unfold profileRoute at h ⊢
  cases hu : updateUser db caller.id body now <;> try rw [hu] at h
  · cases h
  · rename_i p
    obtain ⟨db', u⟩ := p
    simp only [] at h ⊢
    injection h with h1
    exact ⟨u, updateUser_mem db caller.id body now db' u hu, h1.symm⟩

lemma updateUserRole_mem (db : DB) (uid : Nat) (r : Role) (now : Nat)
    (db' : DB) (u : User) (h : updateUserRole db uid r now = some (db', u)) :
    u ∈ db'.users := by
  unfold updateUserRole at h
  cases hf : db.users.find? (fun x => x.id == uid) <;> try rw [hf] at h
  · cases h
  · rename_i u0
    simp only [] at h
    injection h with h'
    cases h'
    have hmem := List.mem_of_find?_eq_some hf
    have hpred : (u0.id == uid) = true := by simpa using List.find?_some hf
    have hm := List.mem_map_of_mem
      (fun x : User => if x.id == uid then { x with role := r, updatedAt := now } else x) hmem
    simp only [] at hm
    rw [if_pos hpred] at hm
    exact hm

lemma roleRoute_ok_shape (caller : TokenPayload) (uid : Nat) (rn : String) (now : Nat)
    (db : DB) (f : List (String × JVal))
    (h : (roleRoute caller uid rn now db).2 = RoleUpdateResult.ok f) :
    ∃ u ∈ ((roleRoute caller uid rn now db).1).users, f = sanitizeUser u := by
  unfold roleRoute at h ⊢
  split at h
  · cases h
  · rename_i hadm
    rw [if_neg hadm]
    cases hr : parseRole rn
    case none =>
      try simp only [hr] at h
      try simp only [hr]
      try simp only [] at h
      try simp only []
      cases h
    case some r =>
      try simp only [hr] at h
      try simp only [hr]
      try simp only [] at h
      try simp only []
      cases hu : updateUserRole db uid r now
      case none =>
        try simp only [hu] at h
        try simp only [] at h
        cases h
      case some p =>
        obtain ⟨db2, u⟩ := p
        try simp only [hu] at h
        try simp only [hu]
        try simp only [] at h
        try simp only []
        injection h with h1
        exact ⟨u, updateUserRole_mem db uid r now db2 u hu, h1.symm⟩

lemma adminUsersRoute_shape (caller : TokenPayload) (db : DB)
    (l : List (List (String × JVal))) (h : adminUsersRoute caller db = some l) :
    l = db.users.map sanitizeUser := by
  unfold adminUsersRoute at h
  split at h
  · cases h
  · injection h with h1
    exact h1.symm

/-! ### The claims -/

/-- Claim C1: for every authenticated booking-creation request, regardless
of any userId or status value supplied in the request body, the created
booking has owner equal to the caller id and status equal to pending. -/
theorem claim_C1_booking_owner_status_forced (caller : TokenPayload) (body : BookingReqBody)
    (now : Nat) (db : DB) (bk : Booking)
    (h : (createBookingRoute caller body now db).2 = CreateBookingResult.created bk) :
    bk.userId = caller.id ∧ bk.status = BookingStatus.pending := by
  unfold createBookingRoute at h
  cases hp : bookingParse caller.id body with
  | none => rw [hp] at h; cases h
  | some ins =>
      rw [hp] at h
      have hins := bookingParse_userId caller.id body ins hp
      dsimp [createBooking, createNotification] at h
      injection h with h'
      subst h'
      exact ⟨hins, rfl⟩

/-- Witness for C1: a request claiming userId 99 and status approved still
yields a booking owned by caller 7 with status pending. -/
theorem claim_C1_witness :
    (createBookingRoute studentW bookReqW 0 initDB).2 = CreateBookingResult.created bkW ∧
    (bkW.userId = studentW.id ∧ bkW.status = BookingStatus.pending) :=
  ⟨rfl, claim_C1_booking_owner_status_forced studentW bookReqW 0 initDB bkW rfl⟩

/-- Claim C2: in every store reachable through the API operations, every
booking has a legal status and its reviewer reference and review
timestamp are null exactly when the status is pending. -/
theorem claim_C2_booking_invariant (db : DB) (h : Reachable db) :
    ∀ b ∈ db.bookings, BookingInv b := by
  induction h with
  | init => intro b hb; cases hb
  | step hr hs ih =>
      cases hs with
      | register b hashed now => rw [registerRoute_bookings]; exact ih
      | profile caller body now => rw [profileRoute_bookings]; exact ih
      | password caller cur ok hsh now => rw [passwordRoute_bookings]; exact ih
      | book caller body now => exact inv_createBookingRoute caller body now _ ih
      | approve caller bid notes now => exact inv_approveRoute caller bid notes now _ ih
      | reject caller bid notes now => exact inv_rejectRoute caller bid notes now _ ih
      | markRead nid => exact ih
      | markAll uid => exact ih
      | setRole caller uid rn now => rw [roleRoute_bookings]; exact ih
      | delUser caller uid => rw [deleteUserRoute_bookings]; exact ih
      | newFacility caller body now => rw [createFacilityRoute_bookings]; exact ih
      | editFacility caller fid p now => rw [updateFacilityRoute_bookings]; exact ih
      | delFacility caller fid => rw [deleteFacilityRoute_bookings]; exact ih

/-- Witness for C2: the invariant holds for the booking stored after one
creation step from the empty store. -/
theorem claim_C2_witness : BookingInv bkW :=
  claim_C2_booking_invariant dbReachedW
    (Reachable.step Reachable.init (Step.book initDB studentW bookReqW 0)) bkW
    (by rw [show dbReachedW.bookings = [bkW] from rfl]; exact List.mem_singleton_self bkW)

/-- Claim C3: an admin approve or reject on an absent booking id fails
with NotFound and changes nothing; on a present booking it overwrites
status, reviewer, review timestamp and the provided notes, and appends
exactly one notification to the owning user, embedding the notes text in
the message when rejecting. -/
theorem claim_C3_review_updates_and_notifies (caller : TokenPayload) (bid : Nat)
    (notes : Option String) (now : Nat) (db : DB) (hAdmin : caller.role = Role.admin) :
    (db.bookings.find? (fun x => x.id == bid) = none →
      approveRoute caller bid notes now db = (db, ReviewResult.notFound) ∧
      rejectRoute caller bid notes now db = (db, ReviewResult.notFound)) ∧
    (∀ b, db.bookings.find? (fun x => x.id == bid) = some b →
      ((approveRoute caller bid notes now db).2 =
          ReviewResult.ok (reviewBooking b BookingStatus.approved caller.id notes now) ∧
        (reviewBooking b BookingStatus.approved caller.id notes now).status =
          BookingStatus.approved ∧
        (reviewBooking b BookingStatus.approved caller.id notes now).reviewedBy =
          some caller.id ∧
        (reviewBooking b BookingStatus.approved caller.id notes now).reviewedAt = some now ∧
        (∀ s, notes = some s →
          (reviewBooking b BookingStatus.approved caller.id notes now).adminNotes = some s) ∧
        (∃ n : Notification,
          ((approveRoute caller bid notes now db).1).notifications = db.notifications ++ [n] ∧
          n.userId = b.userId ∧ n.title = "Booking Approved" ∧ n.type = "success")) ∧
      ((rejectRoute caller bid notes now db).2 =
          ReviewResult.ok (reviewBooking b BookingStatus.rejected caller.id notes now) ∧
        (∃ n : Notification,
          ((rejectRoute caller bid notes now db).1).notifications = db.notifications ++ [n] ∧
          n.userId = b.userId ∧ n.title = "Booking Rejected" ∧ n.type = "error" ∧
          ∀ s, notes = some s → ∃ pre post, n.message = pre ++ s ++ post))) := by
  constructor
  · intro hfind
    exact ⟨approveRoute_notFound caller bid notes now db hAdmin hfind,
           rejectRoute_notFound caller bid notes now db hAdmin hfind⟩
  · intro b hfind
    obtain ⟨ha2, _, ha3⟩ := approveRoute_found caller bid notes now db b hAdmin hfind
    obtain ⟨hr2, _, hr3⟩ := rejectRoute_found caller bid notes now db b hAdmin hfind
    refine ⟨⟨ha2, rfl, rfl, rfl, ?_, ?_⟩, ⟨hr2, ?_⟩⟩
    · intro s hs; simp [reviewBooking, hs]
    · exact ⟨_, ha3, rfl, rfl, rfl⟩
    · refine ⟨_, hr3, rfl, rfl, rfl, ?_⟩
      intro s hs
      subst hs
      exact rejectMessage_embeds b.eventName s

/-- Witness for C3: approving booking 1 in a concrete store succeeds and
returns the reviewed booking. -/
theorem claim_C3_witness :
    (approveRoute adminW 1 (some "ok") 5 dbW).2 =
      ReviewResult.ok
        (reviewBooking (exBooking 1 BookingStatus.pending) BookingStatus.approved
          adminW.id (some "ok") 5) :=
  ((claim_C3_review_updates_and_notifies adminW 1 (some "ok") 5 dbW rfl).2
    (exBooking 1 BookingStatus.pending) rfl).1.1

/-- Claim C4: a booking already in a terminal state can still be
re-approved or flipped by a later admin call, which overwrites status,
reviewer, timestamp and notes; no terminal-state guard exists. -/
theorem claim_C4_no_terminal_guard (caller : TokenPayload) (bid : Nat)
    (notes : Option String) (now : Nat) (db : DB) (b : Booking)
    (hAdmin : caller.role = Role.admin)
    (hfind : db.bookings.find? (fun x => x.id == bid) = some b)
    (hterm : b.status = BookingStatus.approved ∨ b.status = BookingStatus.rejected) :
    (approveRoute caller bid notes now db).2 =
      ReviewResult.ok (reviewBooking b BookingStatus.approved caller.id notes now) ∧
    (rejectRoute caller bid notes now db).2 =
      ReviewResult.ok (reviewBooking b BookingStatus.rejected caller.id notes now) ∧
    ((approveRoute caller bid notes now db).1).bookings =
      db.bookings.map (fun x =>
        if x.id == bid then reviewBooking x BookingStatus.approved caller.id notes now else x) ∧
    (reviewBooking b BookingStatus.approved caller.id notes now).status =
      BookingStatus.approved ∧
    (reviewBooking b BookingStatus.rejected caller.id notes now).status =
      BookingStatus.rejected ∧
    (reviewBooking b BookingStatus.approved caller.id notes now).reviewedBy = some caller.id ∧
    (reviewBooking b BookingStatus.approved caller.id notes now).reviewedAt = some now ∧
    (∀ s, notes = some s →
      (reviewBooking b BookingStatus.approved caller.id notes now).adminNotes = some s) := by
  obtain ⟨ha2, hab, _⟩ := approveRoute_found caller bid notes now db b hAdmin hfind
  obtain ⟨hr2, _, _⟩ := rejectRoute_found caller bid notes now db b hAdmin hfind
  refine ⟨ha2, hr2, hab, rfl, rfl, rfl, rfl, ?_⟩
  intro s hs; simp [reviewBooking, hs]

/-- Witness for C4: re-approving an already-approved booking succeeds. -/
theorem claim_C4_witness :
    (approveRoute adminW 1 (some "again") 9 dbApprovedW).2 =
      ReviewResult.ok
        (reviewBooking (exBooking 1 BookingStatus.approved) BookingStatus.approved
          adminW.id (some "again") 9) :=
  (claim_C4_no_terminal_guard adminW 1 (some "again") 9 dbApprovedW
    (exBooking 1 BookingStatus.approved) rfl rfl (Or.inl rfl)).1

/-- Claim C5: an approve or reject call by a caller whose role is not
admin fails with Forbidden (403) and leaves the whole store, hence the
targeted booking and the notifications, unchanged. -/
theorem claim_C5_review_requires_admin (caller : TokenPayload) (bid : Nat)
    (notes : Option String) (now : Nat) (db : DB) (h : caller.role ≠ Role.admin) :
    approveRoute caller bid notes now db = (db, ReviewResult.forbidden) ∧
    rejectRoute caller bid notes now db = (db, ReviewResult.forbidden) ∧
    reviewStatusCode ReviewResult.forbidden = 403 := by
  have hb : (caller.role != Role.admin) = true := by
    simp [bne_iff_ne, h]
  refine ⟨?_, ?_, rfl⟩
  · unfold approveRoute; rw [if_pos hb]
  · unfold rejectRoute; rw [if_pos hb]

/-- Witness for C5: a student calling approve gets Forbidden and the
store is untouched. -/
theorem claim_C5_witness :
    approveRoute studentW 1 none 0 dbW = (dbW, ReviewResult.forbidden) :=
  (claim_C5_review_requires_admin studentW 1 none 0 dbW (by decide)).1

/-- Claim C6 (evaluated at the failing input): the server registers no
DELETE, PATCH or PUT route for /api/bookings/:id, so an owner request to
delete or edit a booking - which the client page my-bookings.tsx issues
and the spec requires - matches no route and never reaches a handler
(Express answers 404), while genuinely registered routes do match. -/
theorem claim_C6_no_edit_delete_route :
    (∀ s : String, routeMatch Method.delete ["api", "bookings", s] = false) ∧
    (∀ s : String, routeMatch Method.patch ["api", "bookings", s] = false) ∧
    (∀ s : String, routeMatch Method.put ["api", "bookings", s] = false) ∧
    routeMatch Method.delete ["api", "admin", "users", "1"] = true ∧
    routeMatch Method.post ["api", "bookings"] = true := by
  refine ⟨?_, ?_, ?_, by decide, by decide⟩ <;>
    intro s <;> simp [routeMatch, registeredRoutes, pathMatch, segMatch]

/-- Claim C7, counterexample: a present token that fails verification is
rejected with 403, not with the 401 the spec assigns to the
Unauthenticated class. -/
theorem claim_C7_counterexample :
    authenticateTokenGate TokenState.invalid ≠ some 401 ∧
    authenticateTokenGate TokenState.invalid = some 403 := by
  constructor
  · intro h; cases h
  · rfl

/-- Claim C7 as amended: a missing token yields 401, a present token
failing signature or expiry verification yields 403 (a different status
from the missing-token case), and a verified token passes the gate. -/
theorem claim_C7_amended :
    authenticateTokenGate TokenState.missing = some 401 ∧
    authenticateTokenGate TokenState.invalid = some 403 ∧
    ∀ p, authenticateTokenGate (TokenState.valid p) = none :=
  ⟨rfl, rfl, fun _ => rfl⟩

/-- Claim C8: a registration request that passes validation but whose
email matches an existing user fails with the duplicate-email conflict
(HTTP 400), leaves the user table unchanged, and issues no token. -/
theorem claim_C8_duplicate_email_conflict (b : RegisterBody) (hashed : String) (now : Nat)
    (db : DB) (hvalid : registerParseOk b = true)
    (hdup : ∃ u ∈ db.users, u.email = b.email) :
    registerRoute b hashed now db = (db, RegisterResult.emailConflict) ∧
    registerStatusCode RegisterResult.emailConflict = 400 ∧
    ((registerRoute b hashed now db).1).users = db.users ∧
    ∀ f t, (registerRoute b hashed now db).2 ≠ RegisterResult.created f t := by
  obtain ⟨u, hu, he⟩ := hdup
  have hfind : (getUserByEmail db b.email).isSome := by
    unfold getUserByEmail
    rw [List.find?_isSome]
    exact ⟨u, hu, by simp [he]⟩
  obtain ⟨u0, hu0⟩ := Option.isSome_iff_exists.mp hfind
  have hmain : registerRoute b hashed now db = (db, RegisterResult.emailConflict) := by
    unfold registerRoute
    rw [if_neg (by simp [hvalid]), hu0]
  refine ⟨hmain, rfl, by rw [hmain], ?_⟩
  intro f t hcon
  rw [hmain] at hcon
  cases hcon

/-- Witness for C8: re-registering the email of an existing user hits
the conflict branch. -/
theorem claim_C8_witness :
    registerRoute regBodyW "h2" 3 dbUserW = (dbUserW, RegisterResult.emailConflict) :=
  (claim_C8_duplicate_email_conflict regBodyW "h2" 3 dbUserW rfl
    ⟨uW, by rw [show dbUserW.users = [uW] from rfl]; exact List.mem_singleton_self uW, rfl⟩).1

/-- Claim C9: the booking-stats aggregation returns exactly the number
of bookings with each status, a total equal to the collection size, and
the three counts always sum to the total; on the 3-approved, 2-pending,
1-rejected example it returns (2, 3, 1, 6). -/
theorem claim_C9_stats_partition (db : DB) :
    (getBookingStats db).total = db.bookings.length ∧
    (getBookingStats db).pending =
      db.bookings.countP (fun b => b.status == BookingStatus.pending) ∧
    (getBookingStats db).approved =
      db.bookings.countP (fun b => b.status == BookingStatus.approved) ∧
    (getBookingStats db).rejected =
      db.bookings.countP (fun b => b.status == BookingStatus.rejected) ∧
    (getBookingStats db).pending + (getBookingStats db).approved +
      (getBookingStats db).rejected = (getBookingStats db).total ∧
    getBookingStats statsExampleDB =
      { pending := 2, approved := 3, rejected := 1, total := 6 } := by
  refine ⟨rfl, ?_, ?_, ?_, status_filter_partition db.bookings, by decide⟩ <;>
    simp [getBookingStats, List.countP_eq_length_filter]

/-- Claim C10: no success response of the user-returning endpoints
(register, login, profile update, admin user list, role update) carries
the stored password hash: the sanitized object never has a password key,
agrees with the full row on every other key, and every returned user
object is the sanitization of a row stored in the database. -/
theorem claim_C10_no_password_leak :
    (∀ u : User,
      (∀ kv ∈ sanitizeUser u, kv.1 ≠ "password") ∧
      (∀ k, k ≠ "password" → (sanitizeUser u).lookup k = (userJson u).lookup k)) ∧
    (∀ b hashed now db f t, (registerRoute b hashed now db).2 = RegisterResult.created f t →
      ∃ u ∈ ((registerRoute b hashed now db).1).users, f = sanitizeUser u) ∧
    (∀ b ok db f t, (loginRoute b ok db).2 = LoginResult.ok f t →
      ∃ u ∈ db.users, f = sanitizeUser u) ∧
    (∀ caller body now db f, (profileRoute caller body now db).2 = ProfileResult.ok f →
      ∃ u ∈ ((profileRoute caller body now db).1).users, f = sanitizeUser u) ∧
    (∀ caller db l, adminUsersRoute caller db = some l → l = db.users.map sanitizeUser) ∧
    (∀ caller uid rn now db f, (roleRoute caller uid rn now db).2 = RoleUpdateResult.ok f →
      ∃ u ∈ ((roleRoute caller uid rn now db).1).users, f = sanitizeUser u) := by
  refine ⟨?_, ?_, ?_, ?_, ?_, ?_⟩
  · intro u
    exact ⟨sanitize_keys (userJson u), fun k hk => sanitize_lookup (userJson u) k hk⟩
  · intro b hashed now db f t h
    exact registerRoute_created_shape b hashed now db f t h
  · intro b ok db f t h
    exact loginRoute_ok_shape b ok db f t h
  · intro caller body now db f h
    exact profileRoute_ok_shape caller body now db f h
  · intro caller db l h
    exact adminUsersRoute_shape caller db l h
  · intro caller uid rn now db f h
    exact roleRoute_ok_shape caller uid rn now db f h

/-- Witness for C10: the user object returned by a concrete successful
registration is the sanitization of the stored row, and lookups away
from the password key agree with the full row. -/
theorem claim_C10_witness :
    (∃ u ∈ ((registerRoute regBodyW "hashedpw" 0 initDB).1).users,
        sanitizeUser uW = sanitizeUser u) ∧
    (sanitizeUser uW).lookup "email" = (userJson uW).lookup "email" :=
  ⟨claim_C10_no_password_leak.2.1 regBodyW "hashedpw" 0 initDB (sanitizeUser uW)
      ⟨1, "a@b.c", Role.student⟩ rfl,
   (claim_C10_no_password_leak.1 uW).2 "email" (by decide)⟩

end FacilityHub
